import Mathlib

/-!
Verification development for the `picky` restaurant-recommendation system.

This file gives a shallow embedding, in Lean 4, of the core of the Python
implementation: the Scoring Engine, the Similarity Engine, the Preference
Model Builder and the session-based Session Manager
(`src/recommendation_engine.py`, `src/preference_analyzer.py`,
`src/database.py`, `src/main_system.py`, `src/api.py`), together with
theorems settling the behavioural claims about it.

Embedding conventions:
* Python floats are modelled as exact rationals (`ℚ`); `round(x, 3)` becomes
  `round3` below.
* `Optional` fields become `Option`; Python truthiness tests on optional
  fields whose documented domain excludes falsy values (`price_level` is
  "1-4 scale" in `models.py`, `google_rating` is a 1-5 Google rating) are
  embedded as presence tests.
* The `location` dict of a restaurant is represented by its `city` / `state`
  entries (plus, for store queries, the abstract radius-query result, see
  `EngineState.nearby_db`); geodesic distance itself is a Restaurant-Store
  concern and only affects the `distance_km` display field, which no claim
  mentions, so `Recommendation` keeps only the restaurant and the score.
* The `features` dict is read by the code only through the truthiness of
  `features.get("website")` / `features.get("phone")`; those two bits are the
  fields `hasWebsite` / `hasPhone`.
* `str.lower()` is ASCII lowercasing (`Char.toLower`), which is faithful for
  the tag vocabulary in play, and `a in b` on strings is `pyIn`.
* Timestamps (`created_at`, `last_activity`, `last_updated`) carry no
  behavioural content for the claims and are dropped.
-/

namespace Picky

/-- Python's `round(q, 3)`: round to three decimal places. -/
def round3 (q : ℚ) : ℚ := (round (q * 1000) : ℚ) / 1000

/-- ASCII lowercasing of a string, the embedding of `str.lower()`. -/
def pyLower (s : String) : String := ⟨s.data.map Char.toLower⟩

/-- Decide whether `needle` occurs as a contiguous sublist of `hay`. -/
def containsSub {α : Type} [DecidableEq α] : List α → List α → Bool
  | [], needle => needle.isEmpty
  | a :: t, needle => needle.isPrefixOf (a :: t) || containsSub t needle

/-- The embedding of Python's substring test `needle in hay`. -/
def pyIn (needle hay : String) : Bool := containsSub hay.data needle.data

/-- First-match lookup in an association list, the embedding of
`dict.get(key)` (`dict` keys are unique, so first match is the match). -/
def lookupKey {κ α : Type} [DecidableEq κ] : List (κ × α) → κ → Option α
  | [], _ => none
  | (k, v) :: t, k' => if k = k' then some v else lookupKey t k'

/-- Python's `max` over a list of rationals (`0` on `[]`; the code only calls
it on non-empty lists). -/
def maxQ : List ℚ → ℚ
  | [] => 0
  | [x] => x
  | x :: y :: t => max x (maxQ (y :: t))

/-- Descending-stable sort by a key, the embedding of
`list.sort(key=..., reverse=True)` (Python's sort is stable; insertion sort
with a non-strict comparison is the same stable descending order). -/
def sortDescBy {α β : Type} [LinearOrder β] (f : α → β) (l : List α) : List α :=
  l.insertionSort (fun a b => f b ≤ f a)

/-- Restaurant record (`models.py`), restricted to the fields the verified
core reads. -/
structure Restaurant where
  id : String
  name : String
  cuisine_type : List String
  vibes : List String
  city : Option String
  state : Option String
  price_level : Option Nat
  user_rating : Option ℚ
  google_rating : Option ℚ
  hasWebsite : Bool
  hasPhone : Bool
  menu_items : List String
  revisit_preference : Option String
  google_place_id : Option String
  notes : Option String
  deriving DecidableEq

/-- User preference profile (`models.py`), restricted to the fields consumed
by scoring (`rating_patterns` and `location_history` are write-only for the
claims at hand). -/
structure UserProfile where
  user_id : String
  cuisine_preferences : List (String × ℚ)
  price_preferences : List (Nat × ℚ)
  vibe_preferences : List (String × ℚ)
  favorite_dishes : List String
  deriving DecidableEq

/-- A scored recommendation (`models.py`); the reasoning string and
`distance_km` are presentation-only and no claim mentions them. -/
structure Recommendation where
  restaurant : Restaurant
  score : ℚ
  deriving DecidableEq

/-- Embedding of `RecommendationEngine._calculate_cuisine_score`. -/
def calcCuisineScore (r : Restaurant) (p : UserProfile) : ℚ :=
  if r.cuisine_type.isEmpty then 0
  else maxQ (r.cuisine_type.map (fun c => (lookupKey p.cuisine_preferences c).getD 0))

/-- Embedding of `RecommendationEngine._calculate_price_score`. -/
def calcPriceScore (r : Restaurant) (p : UserProfile) : ℚ :=
  match r.price_level with
  | none => 0
  | some pl => if p.price_preferences.isEmpty then 0 else (lookupKey p.price_preferences pl).getD 0

/-- Embedding of `RecommendationEngine._calculate_vibe_score`. -/
def calcVibeScore (r : Restaurant) (p : UserProfile) : ℚ :=
  if r.vibes.isEmpty then 0
  else maxQ (r.vibes.map (fun v => (lookupKey p.vibe_preferences v).getD 0))

/-- Embedding of `RecommendationEngine._calculate_quality_score`: 0.8 times
the normalised Google rating, +0.1 for a website feature, +0.1 for a phone
feature, capped at 1.0. -/
def calcQualityScore (r : Restaurant) : ℚ :=
  let g := match r.google_rating with
    | none => 0
    | some gr => (gr - 3) / 2 * 0.8
  let s1 := g + (if r.hasWebsite then 0.1 else 0)
  let s2 := s1 + (if r.hasPhone then 0.1 else 0)
  min s2 1

/-- Test `restaurant.revisit_preference in ["Y", "Yes", "yes"]`. -/
def isAffirmative (r : Restaurant) : Bool :=
  match r.revisit_preference with
  | some s => s = "Y" ∨ s = "Yes" ∨ s = "yes"
  | none => false

/-- Whether some menu item of `r` contains `dish` case-insensitively (the
inner loop of `_calculate_special_score`, which breaks after the first
matching menu item). -/
def dishMatches (r : Restaurant) (dish : String) : Bool :=
  r.menu_items.any (fun m => pyIn (pyLower dish) (pyLower m))

/-- Embedding of `RecommendationEngine._calculate_special_score`: +1.0 for an
affirmative revisit preference, +0.3 for each favorite dish matching some
menu item (the `break` leaves only the inner loop), capped at 1.0. -/
def calcSpecialScore (r : Restaurant) (p : UserProfile) : ℚ :=
  let base : ℚ := if isAffirmative r then 1 else 0
  let s := p.favorite_dishes.foldl
    (fun acc dish => if dishMatches r dish then acc + 0.3 else acc) base
  min s 1

/-- Embedding of `RecommendationEngine._calculate_recommendation_score`:
weighted sum of the five sub-scores, rounded to 3 decimals. -/
def calcRecommendationScore (r : Restaurant) (p : UserProfile) : ℚ :=
  round3 (calcCuisineScore r p * 0.4 + calcPriceScore r p * 0.2
    + calcVibeScore r p * 0.2 + calcQualityScore r * 0.15 + calcSpecialScore r p * 0.05)

/-- Embedding of `RecommendationEngine._calculate_set_similarity`; the call
sites pass `set(list)`, so the function here takes the two lists and works on
their distinct elements. Two empty sets give 1.0, exactly one empty set gives
0.0, otherwise Jaccard. -/
def calcSetSimilarity (s1 s2 : List String) : ℚ :=
  if s1.dedup.isEmpty && s2.dedup.isEmpty then 1
  else if s1.dedup.isEmpty || s2.dedup.isEmpty then 0
  else
    let i := (s1.dedup.filter (fun x => x ∈ s2)).length
    let u := ((s1 ++ s2).dedup).length
    if 0 < u then (i : ℚ) / u else 0

/-- Embedding of `RecommendationEngine._calculate_similarity`: weighted sum
of cuisine Jaccard (0.4), vibe Jaccard (0.3), price closeness (0.2, only when
both price levels are present) and same-city bonus (0.1, only when both city
entries are present). -/
def calcSimilarity (r1 r2 : Restaurant) : ℚ :=
  let sim1 := calcSetSimilarity r1.cuisine_type r2.cuisine_type * 0.4
  let sim2 := sim1 + calcSetSimilarity r1.vibes r2.vibes * 0.3
  let sim3 := sim2 + (match r1.price_level, r2.price_level with
    | some p1, some p2 => max 0 (1 - |(p1 : ℚ) - (p2 : ℚ)| / 3) * 0.2
    | _, _ => 0)
  sim3 + (match r1.city, r2.city with
    | some c1, some c2 => if c1 = c2 then 0.1 else 0
    | _, _ => 0)

/-- A restaurant with all-absent optional data, used to build concrete
examples compactly. -/
def baseRestaurant (rid : String) : Restaurant :=
  { id := rid, name := rid, cuisine_type := [], vibes := [], city := none,
    state := none, price_level := none, user_rating := none,
    google_rating := none, hasWebsite := false, hasPhone := false,
    menu_items := [], revisit_preference := none, google_place_id := none,
    notes := none }

/-- Number of favorite dishes of `p` that match some menu item of `r`. -/
def matchingDishCount (r : Restaurant) (p : UserProfile) : ℕ :=
  (p.favorite_dishes.filter (fun d => dishMatches r d)).length

/-- Restaurant for the C5 counterexample: two menu items. -/
def crDishes : Restaurant :=
  { baseRestaurant ("r1") with menu_items := ["pad thai", "noodle soup"] }

/-- Profile for the C5 counterexample: two favorite dishes, each matching a
different menu item. -/
def cpDishes : UserProfile :=
  { user_id := "u", cuisine_preferences := [], price_preferences := [],
    vibe_preferences := [], favorite_dishes := ["pad thai", "noodle"] }

/-- Jaccard similarity on the distinct elements of two lists, with the code's
conventions: 1 when both are empty, 0 when exactly one is empty. -/
def jaccardQ (a b : List String) : ℚ :=
  if a.toFinset = ∅ ∧ b.toFinset = ∅ then 1
  else if a.toFinset = ∅ ∨ b.toFinset = ∅ then 0
  else ((a.toFinset ∩ b.toFinset).card : ℚ) / ((a.toFinset ∪ b.toFinset).card : ℚ)

/-- Similarity-example restaurant A. -/
def simExA : Restaurant :=
  { baseRestaurant ("A") with
    cuisine_type := ["Italian", "Pizza"]
    vibes := ["Casual"]
    price_level := some 2
    city := some ("X") }

/-- Similarity-example restaurant B. -/
def simExB : Restaurant :=
  { baseRestaurant ("B") with
    cuisine_type := ["Italian"]
    vibes := ["Casual"]
    price_level := some 2
    city := some ("X") }

/-- Read the user rating of a rated restaurant (`PreferenceAnalyzer` only
reaches these reads on restaurants pre-filtered to have a rating). -/
def pyRating (r : Restaurant) : ℚ := r.user_rating.getD 0

/-- Append one rating to the group of key `k`, creating the group at the end
on first sight — the `defaultdict(list)` accumulation, keeping Python's
insertion order of first occurrence. -/
def addRating {κ : Type} [DecidableEq κ] : List (κ × List ℚ) → κ → ℚ → List (κ × List ℚ)
  | [], k, q => [(k, [q])]
  | (k', l) :: t, k, q =>
      if k' = k then (k', l ++ [q]) :: t else (k', l) :: addRating t k q

/-- Group the user ratings of `rs` by the attribute values `keys` extracts,
as in the `for restaurant: for value: ratings[value].append(rating)` loops of
`preference_analyzer.py`. -/
def groupRatings {κ : Type} [DecidableEq κ] (keys : Restaurant → List κ)
    (rs : List Restaurant) : List (κ × List ℚ) :=
  rs.foldl (fun gs r => (keys r).foldl (fun gs' k => addRating gs' k (pyRating r)) gs) []

/-- Arithmetic mean of a list of rationals (`np.mean`). -/
def meanQ (l : List ℚ) : ℚ := l.sum / l.length

/-- Shared shape of `_analyze_cuisine_preferences`,
`_analyze_price_preferences` and `_analyze_vibe_preferences`: per attribute
value, the confidence-weighted deviation of the group mean from the overall
mean, halved and rounded to 3 decimals; `n` is the full-confidence rating
count (5.0 for cuisine, 3.0 for price and vibe). -/
def analyzePreferencesBy {κ : Type} [DecidableEq κ] (keys : Restaurant → List κ)
    (n : ℚ) (rs : List Restaurant) : List (κ × ℚ) :=
  let overall := meanQ (rs.map pyRating)
  (groupRatings keys rs).map (fun g =>
    (g.1, round3 ((meanQ g.2 - overall) / 2 * min ((g.2.length : ℚ) / n) 1)))

/-- Embedding of `PreferenceAnalyzer._analyze_cuisine_preferences`. -/
def analyzeCuisinePreferences (rs : List Restaurant) : List (String × ℚ) :=
  analyzePreferencesBy (fun r => r.cuisine_type) 5 rs

/-- Embedding of `PreferenceAnalyzer._analyze_price_preferences` (the
truthiness guard on `price_level` is the presence test, per the documented
1-4 domain). -/
def analyzePricePreferences (rs : List Restaurant) : List (Nat × ℚ) :=
  analyzePreferencesBy (fun r => match r.price_level with
    | some pl => [pl]
    | none => []) 3 rs

/-- Embedding of `PreferenceAnalyzer._analyze_vibe_preferences`. -/
def analyzeVibePreferences (rs : List Restaurant) : List (String × ℚ) :=
  analyzePreferencesBy (fun r => r.vibes) 3 rs

/-- Increment the count of `k`, first-seen insertion order — the `Counter`
accumulation. -/
def bumpCount {κ : Type} [DecidableEq κ] : List (κ × Nat) → κ → List (κ × Nat)
  | [], k => [(k, 1)]
  | (k', c) :: t, k =>
      if k' = k then (k', c + 1) :: t else (k', c) :: bumpCount t k

/-- Occurrence counts of the items of `l` in first-seen order
(`collections.Counter`). -/
def countItems (l : List String) : List (String × Nat) := l.foldl bumpCount []

/-- Embedding of `PreferenceAnalyzer._extract_favorite_dishes`: menu items of
restaurants rated at least 4.0, counted, ordered by descending frequency
(`Counter.most_common` is a stable descending sort), kept when occurring more
than once. -/
def extractFavoriteDishes (rs : List Restaurant) : List String :=
  let dishes := (rs.filter (fun r => 4 ≤ pyRating r)).foldl
    (fun acc r => acc ++ r.menu_items) []
  ((sortDescBy (fun g => g.2) (countItems dishes)).filter (fun g => 1 < g.2)).map
    (fun g => g.1)

/-- Embedding of `PreferenceAnalyzer.analyze_user_preferences`: restrict to
rated restaurants; an empty history yields the empty profile, otherwise the
preference maps and favorite dishes are computed from the rated history
(rating patterns and location history are not consumed by any verified
claim). -/
def analyzeUserPreferences (uid : String) (restaurants : List Restaurant) : UserProfile :=
  let rated := restaurants.filter (fun r => r.user_rating.isSome)
  if rated.isEmpty then
    { user_id := uid, cuisine_preferences := [], price_preferences := [],
      vibe_preferences := [], favorite_dishes := [] }
  else
    { user_id := uid
      cuisine_preferences := analyzeCuisinePreferences rated
      price_preferences := analyzePricePreferences rated
      vibe_preferences := analyzeVibePreferences rated
      favorite_dishes := extractFavoriteDishes rated }

/-- A restaurant with vibe tag `v` rated 5.0, for the preference-bound
counterexample. -/
def vibeFive (rid : String) : Restaurant :=
  { baseRestaurant rid with vibes := ["v"], user_rating := some 5 }

/-- A restaurant with no tags rated 1.0, for the preference-bound
counterexample. -/
def plainOne (rid : String) : Restaurant :=
  { baseRestaurant rid with user_rating := some 1 }

/-- Rated history with three 5.0-rated restaurants sharing a vibe and four
1.0-rated restaurants without it. -/
def rsSkew : List Restaurant :=
  [vibeFive ("a"), vibeFive ("b"), vibeFive ("c"),
   plainOne ("d"), plainOne ("e"), plainOne ("f"), plainOne ("g")]

/-- Restaurant used by the bounded-preferences witness. -/
def rwBounded : Restaurant :=
  { baseRestaurant ("w") with
    cuisine_type := ["c"]
    vibes := ["v"]
    price_level := some 2
    user_rating := some 4 }

/-- Replace the first record with the same key, else append — the effect of
SQLite `INSERT OR REPLACE` on a primary-key-unique table. -/
def upsertBy {α : Type} (key : α → String) : List α → α → List α
  | [], x => [x]
  | y :: t, x => if key y = key x then x :: t else y :: upsertBy key t x

/-- First record with the given key — a `SELECT ... WHERE key = ?` lookup. -/
def findBy {α : Type} (key : α → String) (l : List α) (k : String) : Option α :=
  l.find? (fun x => key x == k)

/-- The shape of a session's `location` dict as the code branches on it:
`"lat" in location and "lng" in location` (the coordinates themselves only
feed the Store's geodesic radius query, abstracted as
`EngineState.nearby_db`), else `"city" in location`, else the error branch. -/
inductive SessLocation where
  | coords : SessLocation
  | city (name : String) (region : Option String) : SessLocation
  | invalid : SessLocation
  deriving DecidableEq

/-- Recommendation session record (`models.py`); `session_preferences` is a
dict holding at most the `preferred_cuisines` / `preferred_vibes` keys, here
two `Option` fields. -/
structure Session where
  session_id : String
  user_id : String
  location : SessLocation
  shown_restaurant_ids : List String
  liked_restaurant_ids : List String
  disliked_restaurant_ids : List String
  preferred_cuisines : Option (List String)
  preferred_vibes : Option (List String)
  cached_live_restaurants : List String
  deriving DecidableEq

/-- The state a recommendation engine call can read or write: the Store's
tables (`restaurants`, `user_profiles`, `recommendation_sessions`,
`session_feedback`), the Live Candidate Supplier (whether it is configured,
and the converted restaurants its nearby / text searches would yield), the
Store's answer to the geodesic radius query for the session location, and an
instrumentation counter of the rounds that invoked the supplier. -/
structure EngineState where
  restaurants : List Restaurant
  profiles : List UserProfile
  sessions : List Session
  feedback_log : List (String × String × String)
  google_service : Bool
  live_nearby : List Restaurant
  live_city : List Restaurant
  nearby_db : List Restaurant
  live_calls : Nat
  deriving DecidableEq

/-- Embedding of `DatabaseManager.get_restaurant_by_id`. -/
def getRestaurantById (rs : List Restaurant) (rid : String) : Option Restaurant :=
  findBy (fun r => r.id) rs rid

/-- Embedding of `DatabaseManager.save_restaurant` (`INSERT OR REPLACE`). -/
def saveRestaurant (st : EngineState) (r : Restaurant) : EngineState :=
  { st with restaurants := upsertBy (fun x => x.id) st.restaurants r }

/-- Embedding of `DatabaseManager.get_user_profile`. -/
def getUserProfile (st : EngineState) (uid : String) : Option UserProfile :=
  findBy (fun p => p.user_id) st.profiles uid

/-- Embedding of `DatabaseManager.save_user_profile`. -/
def saveUserProfile (st : EngineState) (p : UserProfile) : EngineState :=
  { st with profiles := upsertBy (fun x => x.user_id) st.profiles p }

/-- Embedding of `DatabaseManager.save_recommendation_session`. The SQL
column list of `save_recommendation_session` omits `cached_live_restaurants`
and `get_recommendation_session` rebuilds the record with its default `[]`,
so the cached-live field does not survive a save/load round trip; the saved
record therefore carries an empty cache. -/
def saveSession (st : EngineState) (s : Session) : EngineState :=
  let stored : Session := { s with cached_live_restaurants := [] }
  { st with sessions := upsertBy (fun x => x.session_id) st.sessions stored }

/-- Embedding of `DatabaseManager.get_recommendation_session`. -/
def getSession (st : EngineState) (sid : String) : Option Session :=
  findBy (fun s => s.session_id) st.sessions sid

/-- Embedding of `DatabaseManager.save_session_feedback` (an append-only
audit table). -/
def logFeedback (st : EngineState) (sid rid kind : String) : EngineState :=
  { st with feedback_log := st.feedback_log ++ [(sid, rid, kind)] }

/-- Ids of already-rated restaurants (the `exclude_visited` set of
`get_recommendations`). -/
def visitedIds (st : EngineState) : List String :=
  (st.restaurants.filter (fun r => r.user_rating.isSome)).map (fun r => r.id)

/-- Google place ids already present in the Store (only truthy ids are
collected by the code). -/
def existingPlaceIds (st : EngineState) : List String :=
  st.restaurants.filterMap (fun r => r.google_place_id)

/-- Keep only live results whose place id is not already in the Store
(`r.google_place_id not in existing_place_ids`; an absent id is never in the
set of strings). -/
def filterNewLive (st : EngineState) (live : List Restaurant) : List Restaurant :=
  live.filter (fun r => match r.google_place_id with
    | some pid => !((existingPlaceIds st).contains pid)
    | none => true)

/-- Score every candidate against the profile. -/
def scoreAll (profile : UserProfile) (rs : List Restaurant) : List Recommendation :=
  rs.map (fun r => { restaurant := r, score := calcRecommendationScore r profile })

/-- Embedding of `RecommendationEngine.get_recommendations` (the session path
calls it with `exclude_visited=True`): profile from the Store or analysed
on demand (and then saved), candidates from the Store's radius query plus,
when requested and configured, the deduplicated live results (counted in
`live_calls`), visited restaurants excluded, scored, sorted descending,
truncated. -/
def getRecommendations (st : EngineState) (uid : String) (limit : Nat)
    (exclude_visited include_live : Bool) : List Recommendation × EngineState :=
  let pp : UserProfile × EngineState :=
    match getUserProfile st uid with
    | some p => (p, st)
    | none =>
        let p := analyzeUserPreferences uid st.restaurants
        (p, saveUserProfile st p)
  let ln : List Restaurant × EngineState :=
    if include_live && pp.2.google_service then
      (pp.2.nearby_db ++ filterNewLive pp.2 pp.2.live_nearby,
        { pp.2 with live_calls := pp.2.live_calls + 1 })
    else (pp.2.nearby_db, pp.2)
  let pool :=
    if exclude_visited then ln.1.filter (fun r => !((visitedIds ln.2).contains r.id))
    else ln.1
  if pool.isEmpty then ([], ln.2)
  else ((sortDescBy (fun rec => rec.score) (scoreAll pp.1 pool)).take limit, ln.2)

/-- Embedding of `RecommendationEngine.get_recommendations_by_city`:
unvisited Store restaurants matching the city (and state when given,
case-insensitively), plus deduplicated live text-search results when
requested and configured (counted in `live_calls`), scored against the
profile (analysed on demand but, unlike `get_recommendations`, not saved),
sorted descending, truncated. -/
def getRecommendationsByCity (st : EngineState) (uid city : String)
    (region : Option String) (limit : Nat) (include_live : Bool) :
    List Recommendation × EngineState :=
  let cityRs := st.restaurants.filter (fun r =>
    (pyLower (r.city.getD ("")) == pyLower city)
    && (match region with
        | none => true
        | some s => pyLower (r.state.getD ("")) == pyLower s)
    && r.user_rating.isNone)
  let ln : List Restaurant × EngineState :=
    if include_live && st.google_service then
      (cityRs ++ filterNewLive st st.live_city, { st with live_calls := st.live_calls + 1 })
    else (cityRs, st)
  if ln.1.isEmpty then ([], ln.2)
  else
    let profile :=
      match getUserProfile ln.2 uid with
      | some p => p
      | none => analyzeUserPreferences uid ln.2.restaurants
    ((sortDescBy (fun rec => rec.score) (scoreAll profile ln.1)).take limit, ln.2)

/-- The fixed cuisine category table of `_apply_session_learning`. -/
def cuisineCategories : List (String × List String) :=
  [("asian", ["vietnamese", "chinese", "thai", "japanese", "korean", "indian",
      "sushi", "ramen", "pho"]),
   ("european", ["italian", "french", "mediterranean", "greek", "spanish"]),
   ("american", ["american", "bbq", "burger", "steakhouse", "diner"]),
   ("latin", ["mexican", "latin", "spanish", "cuban", "brazilian"]),
   ("middle eastern", ["middle eastern", "turkish", "lebanese", "persian"]),
   ("casual", ["cafe", "fast food", "takeout", "pizza", "bakery"])]

/-- Case-insensitive substring match in either direction
(`pref_lower in cuisine_lower or cuisine_lower in pref_lower`), on
already-lowercased strings. -/
def directMatch (prefLower tagLower : String) : Bool :=
  pyIn prefLower tagLower || pyIn tagLower prefLower

/-- Category match: the preference names a category whose representative
cuisines include (as substring) the candidate cuisine. -/
def categoryMatch (prefLower cuisineLower : String) : Bool :=
  match lookupKey cuisineCategories prefLower with
  | some cats => cats.any (fun cc => pyIn cc cuisineLower)
  | none => false

/-- Reverse category match: the cuisine names a category whose representative
cuisines include (as substring) the preference. -/
def reverseCategoryMatch (prefLower cuisineLower : String) : Bool :=
  match lookupKey cuisineCategories cuisineLower with
  | some cats => cats.any (fun cc => pyIn cc prefLower)
  | none => false

/-- The boost a single (cuisine, preference) pair yields in the inner loop of
`_apply_session_learning`: 0.5 on a direct match, else 0.4 on a category or
reverse category match, else nothing. -/
def pairBoost (cuisine pref : String) : Option ℚ :=
  let pl := pyLower pref
  let cl := pyLower cuisine
  if directMatch pl cl then some 0.5
  else if categoryMatch pl cl then some 0.4
  else if reverseCategoryMatch pl cl then some 0.4
  else none

/-- First matching preference for a fixed cuisine (the inner `for pref` loop
with its `break`). -/
def firstBoost (cuisine : String) : List String → Option ℚ
  | [] => none
  | p :: ps =>
      match pairBoost cuisine p with
      | some b => some b
      | none => firstBoost cuisine ps

/-- First matching (cuisine, preference) pair in iteration order — cuisines
outer, preferences inner — as the double loop with its two `break`s computes
it. -/
def findCuisineBoost : List String → List String → Option ℚ
  | [], _ => none
  | c :: cs, prefs =>
      match firstBoost c prefs with
      | some b => some b
      | none => findCuisineBoost cs prefs

/-- The cuisine preference boost of `_apply_session_learning` (guarded by the
key being present with a truthy value). -/
def cuisineBoostOf (r : Restaurant) (sess : Session) : ℚ :=
  match sess.preferred_cuisines with
  | some prefs =>
      if prefs.isEmpty then 0 else (findCuisineBoost r.cuisine_type prefs).getD 0
  | none => 0

/-- The vibe preference boost of `_apply_session_learning`: 0.3 when any
candidate vibe matches any preferred vibe by substring in either
direction. -/
def vibeBoostOf (r : Restaurant) (sess : Session) : ℚ :=
  match sess.preferred_vibes with
  | some prefs =>
      if prefs.isEmpty then 0
      else if r.vibes.any (fun v =>
          prefs.any (fun pf => directMatch (pyLower pf) (pyLower v))) then 0.3
      else 0
  | none => 0

/-- The liked-similarity boost of `_apply_session_learning`: for every liked
id that resolves in the Store, +0.2 on shared cuisine tags and +0.1 on shared
vibe tags, accumulated once per list element. -/
def likedBoostOf (st : EngineState) (r : Restaurant) (likedIds : List String) : ℚ :=
  likedIds.foldl (fun acc lid =>
    match getRestaurantById st.restaurants lid with
    | none => acc
    | some lr =>
        let acc1 := if r.cuisine_type.any (fun c => lr.cuisine_type.contains c)
          then acc + 0.2 else acc
        if r.vibes.any (fun v => lr.vibes.contains v) then acc1 + 0.1 else acc1) 0

/-- Adjusted score of one retained candidate: base score plus the three
boosts, clipped at 1.0 from above only. -/
def adjustedScore (st : EngineState) (sess : Session) (rec : Recommendation) : ℚ :=
  min (rec.score + cuisineBoostOf rec.restaurant sess + vibeBoostOf rec.restaurant sess
    + likedBoostOf st rec.restaurant sess.liked_restaurant_ids) 1

/-- Embedding of `RecommendationEngine._apply_session_learning`: drop
already-shown and disliked candidates, adjust the scores of the rest, sort
descending by adjusted score. -/
def applySessionLearning (st : EngineState) (recs : List Recommendation)
    (sess : Session) : List Recommendation :=
  let filtered := recs.foldl (fun acc rec =>
    if sess.shown_restaurant_ids.contains rec.restaurant.id then acc
    else if sess.disliked_restaurant_ids.contains rec.restaurant.id then acc
    else acc ++ [{ restaurant := rec.restaurant, score := adjustedScore st sess rec }]) []
  sortDescBy (fun rec => rec.score) filtered

/-- Whether an id is a live-search id (`id.startswith("gp_")`). -/
def startsWithGp (s : String) : Bool :=
  (("gp_" : String)).data.isPrefixOf s.data

/-- Record the live ids of a freshly fetched pool into the in-memory session
(the `if use_live_search and recommendations:` blocks of
`get_session_recommendations`). -/
def cacheLiveIds (sess : Session) (use_live : Bool) (recs : List Recommendation) : Session :=
  { sess with cached_live_restaurants :=
      if use_live && !recs.isEmpty then
        sess.cached_live_restaurants
          ++ (recs.filterMap (fun rec =>
            if startsWithGp rec.restaurant.id then some rec.restaurant.id else none))
      else sess.cached_live_restaurants }

/-- Tail of `get_session_recommendations`: apply session learning, append the
ids of the returned slice to `shown_restaurant_ids`, persist the session and
return the slice. -/
def finishSession (st : EngineState) (sess : Session) (recs : List Recommendation)
    (limit : Nat) : List Recommendation × EngineState :=
  let filtered := applySessionLearning st recs sess
  let shownNew := (filtered.take limit).map (fun rec => rec.restaurant.id)
  (filtered.take limit,
    saveSession st { sess with shown_restaurant_ids := sess.shown_restaurant_ids ++ shownNew })

/-- Embedding of `RecommendationEngine.get_session_recommendations`: empty
result on an unknown session or invalid location; otherwise a 200-candidate
pool from the location or city path, with a live search only when the
session's cached live ids are empty, then session learning and the shown-ids
update. -/
def getSessionRecommendations (st : EngineState) (sid : String) (limit : Nat)
    (include_live : Bool) : List Recommendation × EngineState :=
  match getSession st sid with
  | none => ([], st)
  | some sess =>
      match sess.location with
      | SessLocation.coords =>
          let use_live := include_live && sess.cached_live_restaurants.isEmpty
          let rs := getRecommendations st sess.user_id 200 true use_live
          finishSession rs.2 (cacheLiveIds sess use_live rs.1) rs.1 limit
      | SessLocation.city c reg =>
          let use_live := include_live && sess.cached_live_restaurants.isEmpty
          let rs := getRecommendationsByCity st sess.user_id c reg 200 use_live
          finishSession rs.2 (cacheLiveIds sess use_live rs.1) rs.1 limit
      | SessLocation.invalid => ([], st)

/-- Embedding of `RecommendationEngine.collect_session_feedback`: failure on
an unknown session; otherwise append to the liked and disliked lists, replace
the session preference entries when a truthy value is supplied, persist, and
write one feedback-log row per id. -/
def collectSessionFeedback (st : EngineState) (sid : String)
    (liked disliked : List String) (cprefs vprefs : Option (List String)) :
    Bool × EngineState :=
  match getSession st sid with
  | none => (false, st)
  | some sess =>
      let sess2 : Session :=
        { sess with
          liked_restaurant_ids := sess.liked_restaurant_ids ++ liked
          disliked_restaurant_ids := sess.disliked_restaurant_ids ++ disliked
          preferred_cuisines :=
            match cprefs with
            | some l => if l.isEmpty then sess.preferred_cuisines else some l
            | none => sess.preferred_cuisines
          preferred_vibes :=
            match vprefs with
            | some l => if l.isEmpty then sess.preferred_vibes else some l
            | none => sess.preferred_vibes }
      let st1 := saveSession st sess2
      let st2 := liked.foldl (fun s rid => logFeedback s sid rid ("liked")) st1
      let st3 := disliked.foldl (fun s rid => logFeedback s sid rid ("disliked")) st2
      (true, st3)

/-- The two operations that mutate an existing session. -/
inductive SessionOp where
  | feedback (sid : String) (liked disliked : List String)
      (cprefs vprefs : Option (List String)) : SessionOp
  | fetch (sid : String) (limit : Nat) (include_live : Bool) : SessionOp

/-- State transition of one session operation. -/
def stepOp (st : EngineState) : SessionOp → EngineState
  | SessionOp.feedback sid l d c v => (collectSessionFeedback st sid l d c v).2
  | SessionOp.fetch sid lim il => (getSessionRecommendations st sid lim il).2

/-- Run a sequence of session operations. -/
def runOps (st : EngineState) (ops : List SessionOp) : EngineState :=
  ops.foldl stepOp st

/-- The stored `shown_restaurant_ids` of a session (empty for an unknown
session). -/
def sessionShown (st : EngineState) (sid : String) : List String :=
  match getSession st sid with
  | some s => s.shown_restaurant_ids
  | none => []

/-- The restaurant ids of a recommendation list. -/
def recIds (recs : List Recommendation) : List String :=
  recs.map (fun rec => rec.restaurant.id)

/-- Embedding of `RecommendationEngine.find_similar_restaurants`: empty on an
unknown target; otherwise candidates other than the target id with similarity
above 0.3, sorted descending, optionally re-ranked by
`0.7·similarity + 0.3·user_score` when a profile is found, truncated. -/
def findSimilarRestaurants (st : EngineState) (rid : String) (limit : Nat)
    (uidOpt : Option String) : List Restaurant :=
  match getRestaurantById st.restaurants rid with
  | none => []
  | some target =>
      let sims := (st.restaurants.filter (fun r => !(r.id == rid))).filterMap (fun r =>
        let s := calcSimilarity target r
        if s > 0.3 then some (r, s) else none)
      let sorted := sortDescBy (fun pr => pr.2) sims
      match uidOpt with
      | some uid =>
          match getUserProfile st uid with
          | some profile =>
              let finals := sorted.map (fun pr =>
                (pr.1, pr.2 * 0.7 + calcRecommendationScore pr.1 profile * 0.3))
              ((sortDescBy (fun pr => pr.2) finals).take limit).map (fun pr => pr.1)
          | none => (sorted.take limit).map (fun pr => pr.1)
      | none => (sorted.take limit).map (fun pr => pr.1)

/-- Result taxonomy of the rating API (`api.py` / `main_system.py`). -/
inductive ApiResult where
  | ok : ApiResult
  | invalidInput : ApiResult
  | notFound : ApiResult
  deriving DecidableEq

/-- Embedding of `MainSystem.add_restaurant_rating` (`main_system.py`):
NotFound on an unknown restaurant; otherwise set the rating (and notes when
truthy), save, and let `update_preferences_with_new_rating` save the
restaurant again, re-analyse the full history and save the profile. -/
def systemAddRestaurantRating (st : EngineState) (uid rid : String) (rating : ℚ)
    (notes : Option String) : ApiResult × EngineState :=
  match getRestaurantById st.restaurants rid with
  | none => (ApiResult.notFound, st)
  | some r =>
      let r2 : Restaurant :=
        { r with
          user_rating := some rating
          notes := match notes with
            | some n => some n
            | none => r.notes }
      let st1 := saveRestaurant st r2
      let st2 := saveRestaurant st1 r2
      let updated := analyzeUserPreferences uid st2.restaurants
      (ApiResult.ok, saveUserProfile st2 updated)

/-- Embedding of `RestaurantRecommendationAPI.add_restaurant_rating`
(`api.py`): InvalidInput unless `1.0 <= rating <= 5.0`, else delegate. -/
def apiAddRestaurantRating (st : EngineState) (uid rid : String) (rating : ℚ)
    (notes : Option String) : ApiResult × EngineState :=
  if 1 ≤ rating ∧ rating ≤ 5 then systemAddRestaurantRating st uid rid rating notes
  else (ApiResult.invalidInput, st)

/-- The profile with empty preference maps. -/
def emptyProfile (uid : String) : UserProfile :=
  { user_id := uid, cuisine_preferences := [], price_preferences := [],
    vibe_preferences := [], favorite_dishes := [] }

/-- A fresh session for the given user and location, as `start_session`
creates it. -/
def freshSession (sid uid : String) (loc : SessLocation) : Session :=
  { session_id := sid, user_id := uid, location := loc,
    shown_restaurant_ids := [], liked_restaurant_ids := [],
    disliked_restaurant_ids := [], preferred_cuisines := none,
    preferred_vibes := none, cached_live_restaurants := [] }

/-- An unvisited restaurant in a city, for concrete session runs. -/
def cityRest (rid c : String) : Restaurant :=
  { baseRestaurant rid with city := some c }

/-- The engine state for the shown-ids witness: one candidate in the
session's city, a stored empty profile, no live supplier. -/
def stW : EngineState :=
  { restaurants := [cityRest ("a") ("X")]
    profiles := [emptyProfile ("u")]
    sessions := [freshSession ("s") ("u") (SessLocation.city ("X") none)]
    feedback_log := []
    google_service := false
    live_nearby := []
    live_city := []
    nearby_db := []
    live_calls := 0 }

/-- A live-search restaurant as `convert_places_to_restaurants` yields it:
a `gp_`-prefixed id and a Google place id. -/
def gpRest : Restaurant :=
  { baseRestaurant ("gp_1") with
    city := some ("X")
    google_place_id := some ("pid1") }

/-- Engine state for the cache-loss run: the Live Candidate Supplier is
configured and would yield `gpRest` for the session's city; the Store holds
no restaurants. -/
def stLive : EngineState :=
  { restaurants := []
    profiles := [emptyProfile ("u")]
    sessions := [freshSession ("s") ("u") (SessLocation.city ("X") none)]
    feedback_log := []
    google_service := true
    live_nearby := []
    live_city := [gpRest]
    nearby_db := []
    live_calls := 0 }

/-- Engine state with empty Store and no supplier, for learning-boost
examples. -/
def stEmpty : EngineState :=
  { restaurants := []
    profiles := []
    sessions := []
    feedback_log := []
    google_service := false
    live_nearby := []
    live_city := []
    nearby_db := []
    live_calls := 0 }

/-- Session with preferred cuisines `["asian", "thai"]`, for the boost-order
counterexample. -/
def sessBoost : Session :=
  { freshSession ("s") ("u") (SessLocation.city ("X") none) with
    preferred_cuisines := some ["asian", "thai"] }

/-- Candidate with cuisines `["sushi", "thai"]` and base score 0: the pair
(sushi, asian) category-matches before the pair (thai, thai) direct-matches.
-/
def recBoost : Recommendation :=
  { restaurant := { baseRestaurant ("rb") with cuisine_type := ["sushi", "thai"] }
    score := 0 }

/-- Plain zero-scored candidate for the session-learning witness. -/
def recPlain : Recommendation :=
  { restaurant := baseRestaurant ("rp"), score := 0 }

/-- Engine state for the rating-API witness: a single known restaurant. -/
def stRate : EngineState :=
  { stEmpty with restaurants := [baseRestaurant ("t")] }

/-- Target restaurant of the similarity witness. -/
def simTgt : Restaurant :=
  { baseRestaurant ("t") with cuisine_type := ["x"] }

/-- A distinct restaurant with the same tags as `simTgt` (similarity 0.7). -/
def simOther : Restaurant :=
  { baseRestaurant ("o") with cuisine_type := ["x"] }

/-- Engine state for the find-similar witness. -/
def stSim : EngineState :=
  { stEmpty with restaurants := [simTgt, simOther] }

/-! ### Theorems -/

lemma calcCuisineScore_eq (r : Restaurant) (p : UserProfile) :
    calcCuisineScore r p
      = maxQ (r.cuisine_type.map (fun c => (lookupKey p.cuisine_preferences c).getD 0)) := by
  cases h : r.cuisine_type with
  | nil => simp [calcCuisineScore, h, maxQ]
  | cons a t => simp [calcCuisineScore, h]

lemma calcVibeScore_eq (r : Restaurant) (p : UserProfile) :
    calcVibeScore r p
      = maxQ (r.vibes.map (fun v => (lookupKey p.vibe_preferences v).getD 0)) := by
  cases h : r.vibes with
  | nil => simp [calcVibeScore, h, maxQ]
  | cons a t => simp [calcVibeScore, h]

lemma calcPriceScore_eq (r : Restaurant) (p : UserProfile) :
    calcPriceScore r p
      = (match r.price_level with
        | none => 0
        | some pl => (lookupKey p.price_preferences pl).getD 0) := by
  cases h : r.price_level with
  | none => simp [calcPriceScore, h]
  | some pl => cases h2 : p.price_preferences <;> simp [calcPriceScore, h, h2, lookupKey]

lemma calcQualityScore_eq (r : Restaurant) :
    calcQualityScore r
      = min ((match r.google_rating with
            | none => (0 : ℚ)
            | some gr => 0.8 * ((gr - 3) / 2))
          + (if r.hasWebsite then 0.1 else 0) + (if r.hasPhone then 0.1 else 0)) 1 := by
  unfold calcQualityScore
  cases h : r.google_rating <;> simp only [h] <;> (congr 1; ring)

/-- C1: for every restaurant and profile the recommendation score is the
3-decimal rounding of
`0.40·cuisine + 0.20·price + 0.20·vibe + 0.15·quality + 0.05·special`, where
the cuisine score is the best preference over the restaurant's cuisine tags
(absent tags scoring 0, and 0 when there are no tags), the price score is the
preference at the restaurant's price level (0 when level or entry is absent),
the vibe score is the analogous best vibe preference, the quality score is
`0.8·(google_rating − 3)/2` (0 when absent) plus 0.1 each for website and
phone features capped at 1.0, and the special score is the revisit /
favorite-dish bonus capped at 1.0. -/
theorem calcRecommendationScore_weighted_formula (r : Restaurant) (p : UserProfile) :
    calcRecommendationScore r p
      = round3 (0.4 * maxQ (r.cuisine_type.map (fun c => (lookupKey p.cuisine_preferences c).getD 0))
        + 0.2 * (match r.price_level with
            | none => 0
            | some pl => (lookupKey p.price_preferences pl).getD 0)
        + 0.2 * maxQ (r.vibes.map (fun v => (lookupKey p.vibe_preferences v).getD 0))
        + 0.15 * min ((match r.google_rating with
              | none => (0 : ℚ)
              | some gr => 0.8 * ((gr - 3) / 2))
            + (if r.hasWebsite then 0.1 else 0) + (if r.hasPhone then 0.1 else 0)) 1
        + 0.05 * calcSpecialScore r p) := by
  unfold calcRecommendationScore
  rw [calcCuisineScore_eq, calcPriceScore_eq, calcVibeScore_eq, calcQualityScore_eq]
  congr 1
  ring

lemma foldl_cond_add (P : String → Bool) (c : ℚ) :
    ∀ (l : List String) (b : ℚ),
      l.foldl (fun acc d => if P d then acc + c else acc) b
        = b + c * (l.filter P).length := by
  intro l
  induction l with
  | nil => simp
  | cons a t ih =>
      intro b
      by_cases h : P a <;> simp [h, ih] <;> push_cast <;> ring

/-- C5 (amended): the favorite-dish component of the special score is +0.3
per matching favorite dish, not +0.3 once; the special score equals the
revisit bonus plus `0.3 × (number of matching favorite dishes)`, capped at
1.0, so several distinct matching dishes compound beyond 0.3. -/
theorem calcSpecialScore_per_dish_bonus (r : Restaurant) (p : UserProfile) :
    calcSpecialScore r p
      = min ((if isAffirmative r then (1 : ℚ) else 0) + 0.3 * matchingDishCount r p) 1 := by
  simp only [calcSpecialScore, matchingDishCount]
  rw [foldl_cond_add]

/-- C5 counterexample: with no affirmative revisit preference and two
distinct matching favorite dishes, the special score is 0.6, exceeding the
0.3 that the claim says dish matches alone can contribute. -/
theorem special_score_exceeds_single_dish_bonus :
    calcSpecialScore crDishes cpDishes = 3/5
      ∧ ¬(calcSpecialScore crDishes cpDishes ≤ 3/10) := by
  have ha : isAffirmative crDishes = false := by decide
  have hl : ((cpDishes.favorite_dishes.filter (fun d => dishMatches crDishes d)).length) = 2 := by
    decide
  have hs : calcSpecialScore crDishes cpDishes = 3/5 := by
    simp only [calcSpecialScore]
    rw [foldl_cond_add, ha, hl]
    norm_num [min_def]
  exact ⟨hs, by rw [hs]; norm_num⟩

lemma calcSetSimilarity_eq_jaccardQ (a b : List String) :
    calcSetSimilarity a b = jaccardQ a b := by
  unfold calcSetSimilarity jaccardQ
  by_cases ha : a = []
  · by_cases hb : b = [] <;> simp [ha, hb, List.dedup_eq_nil, List.toFinset_eq_empty_iff]
  · by_cases hb : b = []
    · simp [ha, hb, List.dedup_eq_nil, List.toFinset_eq_empty_iff]
    · have hae : (a.dedup.isEmpty && b.dedup.isEmpty) = false := by
        simp [List.isEmpty_iff, List.dedup_eq_nil, ha]
      have hao : (a.dedup.isEmpty || b.dedup.isEmpty) = false := by
        simp [List.isEmpty_iff, List.dedup_eq_nil, ha, hb]
      have hfa : ¬(a.toFinset = ∅ ∧ b.toFinset = ∅) := by
        simp [List.toFinset_eq_empty_iff, ha]
      have hfo : ¬(a.toFinset = ∅ ∨ b.toFinset = ∅) := by
        simp [List.toFinset_eq_empty_iff, ha, hb]
      rw [if_neg, if_neg, if_neg hfa, if_neg hfo]
      · have hi : ((a.dedup.filter (fun x => x ∈ b)).length : ℚ)
            = ((a.toFinset ∩ b.toFinset).card : ℚ) := by
          have hn : (a.dedup.filter (fun x => x ∈ b)).Nodup := a.nodup_dedup.filter _
          have ht : (a.dedup.filter (fun x => x ∈ b)).toFinset
              = a.toFinset ∩ b.toFinset := by
            ext x
            simp [List.mem_filter, List.mem_dedup, List.mem_toFinset]
          rw [← ht, List.toFinset_card_of_nodup hn]
        have hu : (((a ++ b).dedup).length : ℚ) = ((a.toFinset ∪ b.toFinset).card : ℚ) := by
          rw [show ((a ++ b).dedup).length = (a.toFinset ∪ b.toFinset).card by
            rw [← List.toFinset_append, List.card_toFinset]]
        have hpos : 0 < ((a ++ b).dedup).length := by
          refine List.length_pos.mpr ?_
          simp only [ne_eq, List.dedup_eq_nil, List.append_eq_nil]
          intro hcon
          exact ha hcon.1
        rw [if_pos hpos, hi, hu]
      · simp [hao]
      · simp [hae]

/-- C6: restaurant similarity is
`0.4·Jaccard(cuisines) + 0.3·Jaccard(vibes) + 0.2·price_term + 0.1·city_term`
with Jaccard of two empty sets 1.0 and of exactly one empty set 0.0, the
price term `max(0, 1 − |Δprice|/3)` only when both price levels are present,
and the city term 1 exactly on case-sensitive equality of present city
strings; on the worked example the similarity is 0.80, above the 0.3
retention threshold. -/
theorem calcSimilarity_jaccard_formula_and_example :
    (∀ r1 r2 : Restaurant,
      calcSimilarity r1 r2
        = 0.4 * jaccardQ r1.cuisine_type r2.cuisine_type
          + 0.3 * jaccardQ r1.vibes r2.vibes
          + (match r1.price_level, r2.price_level with
            | some p1, some p2 => 0.2 * max 0 (1 - |(p1 : ℚ) - (p2 : ℚ)| / 3)
            | _, _ => 0)
          + (match r1.city, r2.city with
            | some c1, some c2 => if c1 = c2 then 0.1 else 0
            | _, _ => 0))
      ∧ calcSimilarity simExA simExB = 4/5 ∧ ((3 : ℚ)/10 < 4/5) := by
  refine ⟨fun r1 r2 => ?_, ?_, by norm_num⟩
  · unfold calcSimilarity
    rw [calcSetSimilarity_eq_jaccardQ, calcSetSimilarity_eq_jaccardQ]
    rcases r1.price_level with _ | p1 <;> rcases r2.price_level with _ | p2 <;>
      rcases r1.city with _ | c1 <;> rcases r2.city with _ | c2 <;>
        simp only [] <;> (try split) <;> ring
  · have hc : calcSetSimilarity (["Italian", "Pizza"]) (["Italian"]) = 1/2 := by
      unfold calcSetSimilarity
      rw [if_neg (by decide), if_neg (by decide), if_pos (by decide),
        show ((["Italian", "Pizza"] : List String).dedup.filter
          (fun x => x ∈ (["Italian"] : List String))).length = 1 from by decide,
        show (((["Italian", "Pizza"] : List String) ++ ["Italian"]).dedup).length = 2 from by
          decide]
      norm_num
    have hv : calcSetSimilarity (["Casual"]) (["Casual"]) = 1 := by
      unfold calcSetSimilarity
      rw [if_neg (by decide), if_neg (by decide), if_pos (by decide),
        show ((["Casual"] : List String).dedup.filter
          (fun x => x ∈ (["Casual"] : List String))).length = 1 from by decide,
        show (((["Casual"] : List String) ++ ["Casual"]).dedup).length = 1 from by decide]
      norm_num
    unfold calcSimilarity
    rw [show simExA.cuisine_type = ["Italian", "Pizza"] from rfl,
      show simExB.cuisine_type = ["Italian"] from rfl,
      show simExA.vibes = ["Casual"] from rfl, show simExB.vibes = ["Casual"] from rfl,
      hc, hv]
    norm_num [simExA, simExB, baseRestaurant]


lemma sum_le_length_mul (l : List ℚ) (b : ℚ) (h : ∀ x ∈ l, x ≤ b) :
    l.sum ≤ l.length * b := by
  induction l with
  | nil => simp
  | cons a t ih =>
      simp only [List.sum_cons, List.length_cons]
      have ha := h a (by simp)
      have ht := ih (fun x hx => h x (by simp [hx]))
      push_cast
      linarith

lemma length_mul_le_sum (l : List ℚ) (a : ℚ) (h : ∀ x ∈ l, a ≤ x) :
    (l.length : ℚ) * a ≤ l.sum := by
  induction l with
  | nil => simp
  | cons x t ih =>
      simp only [List.sum_cons, List.length_cons]
      have hx := h x (by simp)
      have ht := ih (fun y hy => h y (by simp [hy]))
      push_cast
      linarith

lemma meanQ_bounds (l : List ℚ) (hl : l ≠ []) (a b : ℚ) (h : ∀ x ∈ l, a ≤ x ∧ x ≤ b) :
    a ≤ meanQ l ∧ meanQ l ≤ b := by
  have hlen : 0 < (l.length : ℚ) := by
    have := List.length_pos.mpr hl
    exact_mod_cast this
  constructor
  · rw [meanQ, le_div_iff hlen]
    have := length_mul_le_sum l a (fun x hx => (h x hx).1)
    linarith
  · rw [meanQ, div_le_iff hlen]
    have := sum_le_length_mul l b (fun x hx => (h x hx).2)
    linarith

lemma addRating_inv {κ : Type} [DecidableEq κ] (P : ℚ → Prop) (gs : List (κ × List ℚ))
    (k : κ) (q : ℚ) (hgs : ∀ g ∈ gs, g.2 ≠ [] ∧ ∀ x ∈ g.2, P x) (hq : P q) :
    ∀ g ∈ addRating gs k q, g.2 ≠ [] ∧ ∀ x ∈ g.2, P x := by
  induction gs with
  | nil =>
      intro g hg
      simp only [addRating, List.mem_singleton] at hg
      subst hg
      refine ⟨by simp, ?_⟩
      intro x hx
      simp only [List.mem_singleton] at hx
      subst hx
      exact hq
  | cons p t ih =>
      obtain ⟨k1, l1⟩ := p
      intro g hg
      simp only [addRating] at hg
      by_cases hk : k1 = k
      · rw [if_pos hk] at hg
        rcases List.mem_cons.mp hg with hg1 | hg2
        · subst hg1
          refine ⟨by simp, ?_⟩
          intro x hx
          rcases List.mem_append.mp hx with hx1 | hx2
          · exact (hgs (k1, l1) (by simp)).2 x hx1
          · simp only [List.mem_singleton] at hx2
            subst hx2
            exact hq
        · exact hgs g (List.mem_cons_of_mem _ hg2)
      · rw [if_neg hk] at hg
        rcases List.mem_cons.mp hg with hg1 | hg2
        · subst hg1
          exact hgs (k1, l1) (by simp)
        · exact ih (fun g2 hg2m => hgs g2 (List.mem_cons_of_mem _ hg2m)) g hg2

lemma foldl_addRating_inv {κ : Type} [DecidableEq κ] (P : ℚ → Prop) (q : ℚ) (hq : P q) :
    ∀ (ks : List κ) (gs : List (κ × List ℚ)),
      (∀ g ∈ gs, g.2 ≠ [] ∧ ∀ x ∈ g.2, P x) →
      ∀ g ∈ ks.foldl (fun gs2 k => addRating gs2 k q) gs, g.2 ≠ [] ∧ ∀ x ∈ g.2, P x := by
  intro ks
  induction ks with
  | nil => intro gs h; simpa using h
  | cons k kt ih =>
      intro gs h
      simp only [List.foldl_cons]
      exact ih (addRating gs k q) (addRating_inv P gs k q h hq)

lemma groupRatings_inv {κ : Type} [DecidableEq κ] (keys : Restaurant → List κ)
    (P : ℚ → Prop) :
    ∀ (rs : List Restaurant), (∀ r ∈ rs, P (pyRating r)) →
      ∀ g ∈ groupRatings keys rs, g.2 ≠ [] ∧ ∀ x ∈ g.2, P x := by
  have haux : ∀ (rs : List Restaurant) (gs : List (κ × List ℚ)),
      (∀ r ∈ rs, P (pyRating r)) → (∀ g ∈ gs, g.2 ≠ [] ∧ ∀ x ∈ g.2, P x) →
      ∀ g ∈ rs.foldl (fun gs2 r => (keys r).foldl (fun gs3 k => addRating gs3 k (pyRating r)) gs2) gs,
        g.2 ≠ [] ∧ ∀ x ∈ g.2, P x := by
    intro rs
    induction rs with
    | nil => intro gs _ h; simpa using h
    | cons r rt ih =>
        intro gs hb h
        simp only [List.foldl_cons]
        exact ih _ (fun r2 hr2 => hb r2 (by simp [hr2]))
          (foldl_addRating_inv P (pyRating r) (hb r (by simp)) (keys r) gs h)
  intro rs hb
  exact haux rs [] hb (by simp)

lemma round3_mono (a b : ℚ) (h : a ≤ b) : round3 a ≤ round3 b := by
  unfold round3
  have hr : round (a * 1000) ≤ round (b * 1000) := by
    rw [round_eq, round_eq]
    exact Int.floor_le_floor (by linarith)
  rw [div_le_div_right (by norm_num : (0:ℚ) < 1000)]
  exact_mod_cast hr

lemma round3_eq_of (q : ℚ) (n : ℤ) (h1 : (n : ℚ) ≤ q * 1000 + 1/2)
    (h2 : q * 1000 + 1/2 < n + 1) : round3 q = (n : ℚ) / 1000 := by
  unfold round3
  rw [round_eq, Int.floor_eq_iff.mpr ⟨h1, h2⟩]

lemma round3_bounds_two (q : ℚ) (h1 : -2 ≤ q) (h2 : q ≤ 2) :
    -2 ≤ round3 q ∧ round3 q ≤ 2 := by
  have hup : round3 q ≤ round3 2 := round3_mono q 2 h2
  have hlo : round3 (-2) ≤ round3 q := round3_mono (-2) q h1
  have he2 : round3 2 = 2 := by
    unfold round3
    rw [round_eq]
    norm_num
  have hem2 : round3 (-2) = -2 := by
    unfold round3
    rw [round_eq]
    norm_num
  rw [he2] at hup
  rw [hem2] at hlo
  exact ⟨hlo, hup⟩

lemma analyzePreferencesBy_bounded {κ : Type} [DecidableEq κ] (keys : Restaurant → List κ)
    (n : ℚ) (hn : 0 < n) (rs : List Restaurant) (hne : rs ≠ [])
    (hb : ∀ r ∈ rs, 1 ≤ pyRating r ∧ pyRating r ≤ 5) :
    ∀ kv ∈ analyzePreferencesBy keys n rs, -2 ≤ kv.2 ∧ kv.2 ≤ 2 := by
  intro kv hkv
  simp only [analyzePreferencesBy, List.mem_map] at hkv
  obtain ⟨g, hg, hkveq⟩ := hkv
  have hover : 1 ≤ meanQ (rs.map pyRating) ∧ meanQ (rs.map pyRating) ≤ 5 := by
    apply meanQ_bounds
    · simpa using hne
    · intro x hx
      rw [List.mem_map] at hx
      obtain ⟨r, hr, hxr⟩ := hx
      subst hxr
      exact hb r hr
  have hinv := groupRatings_inv keys (fun x => 1 ≤ x ∧ x ≤ 5) rs hb g hg
  have hgm : 1 ≤ meanQ g.2 ∧ meanQ g.2 ≤ 5 := meanQ_bounds g.2 hinv.1 1 5 hinv.2
  have hw0 : (0:ℚ) ≤ min ((g.2.length : ℚ)/n) 1 := le_min (by positivity) (by norm_num)
  have hw1 : min ((g.2.length : ℚ)/n) 1 ≤ 1 := min_le_right _ _
  have hd1 : -2 ≤ (meanQ g.2 - meanQ (rs.map pyRating))/2 := by linarith [hover.2, hgm.1]
  have hd2 : (meanQ g.2 - meanQ (rs.map pyRating))/2 ≤ 2 := by linarith [hover.1, hgm.2]
  have hkv2 : kv.2 = round3 ((meanQ g.2 - meanQ (rs.map pyRating))/2
      * min ((g.2.length : ℚ)/n) 1) := by
    rw [← hkveq]
  rw [hkv2]
  apply round3_bounds_two
  · nlinarith [hd1, hd2, hw0, hw1]
  · nlinarith [hd1, hd2, hw0, hw1]

/-- C7 (amended): on a non-empty rated history with all user ratings in
[1, 5], every value of the cuisine, price and vibe preference maps produced
by profile analysis lies in the interval [-2, 2] (each value is the halved,
confidence-weighted deviation of a group mean from the overall mean, rounded
to 3 decimals; the halved deviation ranges over (-2, 2), so the [-1, 1] bound
of the original claim does not hold, see the counterexample). -/
theorem preference_values_bounded_by_two (uid : String) (rs : List Restaurant)
    (hb : ∀ r ∈ rs, ∀ q, r.user_rating = some q → 1 ≤ q ∧ q ≤ 5)
    (hne : rs.filter (fun r => r.user_rating.isSome) ≠ []) :
    (∀ kv ∈ (analyzeUserPreferences uid rs).cuisine_preferences, -2 ≤ kv.2 ∧ kv.2 ≤ 2)
    ∧ (∀ kv ∈ (analyzeUserPreferences uid rs).price_preferences, -2 ≤ kv.2 ∧ kv.2 ≤ 2)
    ∧ (∀ kv ∈ (analyzeUserPreferences uid rs).vibe_preferences, -2 ≤ kv.2 ∧ kv.2 ≤ 2) := by
  have hrb : ∀ r ∈ rs.filter (fun r => r.user_rating.isSome),
      1 ≤ pyRating r ∧ pyRating r ≤ 5 := by
    intro r hr
    rw [List.mem_filter] at hr
    obtain ⟨hr1, hr2⟩ := hr
    obtain ⟨q, hq⟩ := Option.isSome_iff_exists.mp (by simpa using hr2)
    have hb2 := hb r hr1 q hq
    simpa [pyRating, hq] using hb2
  have hemp : (rs.filter (fun r => r.user_rating.isSome)).isEmpty = false := by
    simpa [List.isEmpty_iff] using hne
  unfold analyzeUserPreferences
  rw [if_neg (by simp [hemp])]
  refine ⟨?_, ?_, ?_⟩
  · exact analyzePreferencesBy_bounded _ 5 (by norm_num) _ hne hrb
  · exact analyzePreferencesBy_bounded _ 3 (by norm_num) _ hne hrb
  · exact analyzePreferencesBy_bounded _ 3 (by norm_num) _ hne hrb

/-- Witness for the preference-bound theorem at a concrete one-restaurant
history. -/
theorem preference_values_bounded_by_two_witness :
    (∀ kv ∈ (analyzeUserPreferences ("w") [rwBounded]).cuisine_preferences,
      -2 ≤ kv.2 ∧ kv.2 ≤ 2)
    ∧ (∀ kv ∈ (analyzeUserPreferences ("w") [rwBounded]).price_preferences,
      -2 ≤ kv.2 ∧ kv.2 ≤ 2)
    ∧ (∀ kv ∈ (analyzeUserPreferences ("w") [rwBounded]).vibe_preferences,
      -2 ≤ kv.2 ∧ kv.2 ≤ 2) :=
  preference_values_bounded_by_two ("w") [rwBounded]
    (by
      intro r hr q hq
      rw [List.mem_singleton] at hr
      subst hr
      rw [show rwBounded.user_rating = some 4 from rfl] at hq
      injection hq with hq4
      rw [← hq4]
      norm_num)
    (by decide)

/-- C7 counterexample: on the skewed history `rsSkew` (three 5.0 ratings
sharing a vibe, four 1.0 ratings without it) the vibe preference value is
1.143, outside [-1, 1]. -/
theorem preference_value_exceeds_one :
    (analyzeUserPreferences ("u") rsSkew).vibe_preferences = [("v", 1143/1000)]
    ∧ ¬((1143 : ℚ)/1000 ≤ 1) := by
  refine ⟨?_, by norm_num⟩
  have hrated : rsSkew.filter (fun r => r.user_rating.isSome) = rsSkew := by rfl
  have hround : round3 ((8 : ℚ)/7) = 1143/1000 := by
    rw [round3_eq_of ((8:ℚ)/7) 1143 (by norm_num) (by norm_num)]
    norm_num
  unfold analyzeUserPreferences
  rw [hrated, if_neg (by decide)]
  show analyzeVibePreferences rsSkew = [("v", 1143/1000)]
  unfold analyzeVibePreferences analyzePreferencesBy
  rw [show groupRatings (fun r => r.vibes) rsSkew = [("v", [5, 5, 5])] from rfl,
    show rsSkew.map pyRating = [5, 5, 5, 1, 1, 1, 1] from rfl]
  simp only [List.map_cons, List.map_nil]
  rw [show (meanQ [5, 5, 5] - meanQ [5, 5, 5, 1, 1, 1, 1]) / 2
      * min ((([5, 5, 5] : List ℚ).length : ℚ) / 3) 1 = 8/7 by
    norm_num [meanQ, List.sum_cons, List.sum_nil, min_def]]
  rw [hround]


lemma find?_eq_some_key {α : Type} (key : α → String) (l : List α) (k : String) (x : α)
    (h : findBy key l k = some x) : key x = k := by
  unfold findBy at h
  have h2 := List.find?_some h
  simpa using h2

lemma findBy_upsertBy_self {α : Type} (key : α → String) (x : α) :
    ∀ l : List α, findBy key (upsertBy key l x) (key x) = some x := by
  intro l
  induction l with
  | nil =>
      unfold upsertBy findBy
      simp
  | cons y t ih =>
      unfold upsertBy
      by_cases h : key y = key x
      · rw [if_pos h]
        unfold findBy
        simp
      · rw [if_neg h]
        show findBy key (y :: upsertBy key t x) (key x) = some x
        unfold findBy
        rw [List.find?_cons_of_neg _ (by simp [h])]
        exact ih

lemma findBy_upsertBy_ne {α : Type} (key : α → String) (x : α) (k : String)
    (hk : key x ≠ k) : ∀ l : List α, findBy key (upsertBy key l x) k = findBy key l k := by
  intro l
  induction l with
  | nil =>
      unfold upsertBy findBy
      simp [hk]
  | cons y t ih =>
      unfold upsertBy
      by_cases h : key y = key x
      · rw [if_pos h]
        unfold findBy
        rw [List.find?_cons_of_neg _ (by simp [hk]),
          List.find?_cons_of_neg _ (by simp [h, hk])]
      · rw [if_neg h]
        by_cases hy : key y = k
        · unfold findBy
          rw [List.find?_cons_of_pos _ (by simp [hy]), List.find?_cons_of_pos _ (by simp [hy])]
        · unfold findBy
          rw [List.find?_cons_of_neg _ (by simp [hy]), List.find?_cons_of_neg _ (by simp [hy])]
          exact ih

lemma getSession_key (st : EngineState) (sid : String) (sess : Session)
    (h : getSession st sid = some sess) : sess.session_id = sid := by
  unfold getSession at h
  exact find?_eq_some_key (fun s => s.session_id) st.sessions sid sess h

/-- C8: for an unknown session id, `collect_session_feedback` reports failure
and `get_session_recommendations` returns an empty result, and in both cases
the engine state — session records, shown/liked/disliked lists and the
feedback log — is left completely unchanged. -/
theorem unknown_session_failure_no_mutation (st : EngineState) (sid : String)
    (liked disliked : List String) (cp vp : Option (List String)) (lim : Nat) (il : Bool)
    (h : getSession st sid = none) :
    collectSessionFeedback st sid liked disliked cp vp = (false, st)
    ∧ getSessionRecommendations st sid lim il = ([], st) := by
  constructor
  · unfold collectSessionFeedback
    rw [h]
  · unfold getSessionRecommendations
    rw [h]

/-- Witness: the unknown-session theorem applied to the empty engine state.
-/
theorem unknown_session_failure_no_mutation_witness :
    collectSessionFeedback stEmpty ("nosuch") [] [] none none = (false, stEmpty)
    ∧ getSessionRecommendations stEmpty ("nosuch") 5 true = ([], stEmpty) :=
  unknown_session_failure_no_mutation stEmpty ("nosuch") [] [] none none 5 true rfl

/-- C9: adding a rating of 0.5 or 5.5 fails with InvalidInput and leaves the
whole engine state — in particular the restaurant and the profile —
unchanged, while ratings of exactly 1.0 and exactly 5.0 pass validation and
succeed on a known restaurant. -/
theorem rating_validation_extremes :
    (∀ (st : EngineState) (uid rid : String) (notes : Option String),
      apiAddRestaurantRating st uid rid (1/2) notes = (ApiResult.invalidInput, st)
      ∧ apiAddRestaurantRating st uid rid (11/2) notes = (ApiResult.invalidInput, st))
    ∧ (∀ (st : EngineState) (uid rid : String) (notes : Option String),
      (getRestaurantById st.restaurants rid).isSome →
      (apiAddRestaurantRating st uid rid 1 notes).1 = ApiResult.ok
      ∧ (apiAddRestaurantRating st uid rid 5 notes).1 = ApiResult.ok) := by
  constructor
  · intro st uid rid notes
    constructor <;> (unfold apiAddRestaurantRating; rw [if_neg (by norm_num)])
  · intro st uid rid notes h
    obtain ⟨r, hr⟩ := Option.isSome_iff_exists.mp h
    constructor <;>
      (unfold apiAddRestaurantRating systemAddRestaurantRating;
        rw [if_pos (by norm_num), hr])

/-- Witness: rating validation on a one-restaurant store. -/
theorem rating_validation_extremes_witness :
    (apiAddRestaurantRating stRate ("u") ("t") (1/2) none = (ApiResult.invalidInput, stRate)
      ∧ apiAddRestaurantRating stRate ("u") ("t") (11/2) none = (ApiResult.invalidInput, stRate))
    ∧ ((apiAddRestaurantRating stRate ("u") ("t") 1 none).1 = ApiResult.ok
      ∧ (apiAddRestaurantRating stRate ("u") ("t") 5 none).1 = ApiResult.ok) :=
  ⟨rating_validation_extremes.1 stRate ("u") ("t") none,
    rating_validation_extremes.2 stRate ("u") ("t") none (by decide)⟩

/-- C3 (code bug): on `stLive` the first round performs a live search,
returns the live restaurant `gp_1` and increments the supplier-call counter;
but because `save_recommendation_session` does not persist
`cached_live_restaurants` (the column is missing from its SQL and the loader
defaults the field to `[]`), the stored session still has an empty cache, and
the second round invokes the Live Candidate Supplier again, raising the
counter to 2 — contradicting the claim that a populated cache stops further
supplier calls. -/
theorem live_supplier_reinvoked_after_cache_loss :
    recIds (getSessionRecommendations stLive ("s") 1 true).1 = ["gp_1"]
    ∧ (getSessionRecommendations stLive ("s") 1 true).2.live_calls = 1
    ∧ ((getSession (getSessionRecommendations stLive ("s") 1 true).2 ("s")).map
        (fun s => s.cached_live_restaurants)) = some []
    ∧ (getSessionRecommendations (getSessionRecommendations stLive ("s") 1 true).2
        ("s") 1 true).2.live_calls = 2 := by
  refine ⟨?_, ?_, ?_, ?_⟩ <;> decide


lemma sortDescBy_pairwise {α β : Type} [LinearOrder β] (f : α → β) (l : List α) :
    (sortDescBy f l).Pairwise (fun a b => f b ≤ f a) := by
  unfold sortDescBy
  haveI h1 : IsTotal α (fun a b => f b ≤ f a) := ⟨fun a b => le_total (f b) (f a)⟩
  haveI h2 : IsTrans α (fun a b => f b ≤ f a) := ⟨fun a b c hab hbc => le_trans hbc hab⟩
  exact List.sorted_insertionSort _ l

lemma mem_sortDescBy {α β : Type} [LinearOrder β] (f : α → β) (l : List α) (x : α) :
    x ∈ sortDescBy f l ↔ x ∈ l :=
  List.mem_insertionSort _

lemma applySessionLearning_eq (st : EngineState) (recs : List Recommendation)
    (sess : Session) :
    applySessionLearning st recs sess
      = sortDescBy (fun rec => rec.score)
        ((recs.filter (fun rec => !(sess.shown_restaurant_ids.contains rec.restaurant.id)
            && !(sess.disliked_restaurant_ids.contains rec.restaurant.id))).map
          (fun rec => { restaurant := rec.restaurant, score := adjustedScore st sess rec })) := by
  simp only [applySessionLearning]
  refine congrArg (sortDescBy (fun rec : Recommendation => rec.score)) ?_
  suffices haux : ∀ (l : List Recommendation) (acc : List Recommendation),
      l.foldl (fun acc2 rec =>
        if sess.shown_restaurant_ids.contains rec.restaurant.id then acc2
        else if sess.disliked_restaurant_ids.contains rec.restaurant.id then acc2
        else acc2 ++ [{ restaurant := rec.restaurant, score := adjustedScore st sess rec }]) acc
      = acc ++ (l.filter (fun rec => !(sess.shown_restaurant_ids.contains rec.restaurant.id)
          && !(sess.disliked_restaurant_ids.contains rec.restaurant.id))).map
        (fun rec => { restaurant := rec.restaurant, score := adjustedScore st sess rec }) by
    have h0 := haux recs []
    rw [List.nil_append] at h0
    exact h0
  intro l
  induction l with
  | nil => intro acc; simp
  | cons a t ih =>
      intro acc
      rw [List.foldl_cons]
      by_cases h1 : a.restaurant.id ∈ sess.shown_restaurant_ids
      · rw [if_pos (by simp [h1]), ih, List.filter_cons, if_neg (by simp [h1])]
      · by_cases h2 : a.restaurant.id ∈ sess.disliked_restaurant_ids
        · rw [if_neg (by simp [h1]), if_pos (by simp [h2]), ih, List.filter_cons,
            if_neg (by simp [h2])]
        · rw [if_neg (by simp [h1]), if_neg (by simp [h2]), ih, List.filter_cons,
            if_pos (by simp [h1, h2]), List.map_cons, List.append_assoc]
          rfl

lemma likedBoostOf_eq_sum (st : EngineState) (r : Restaurant) (ids : List String) :
    likedBoostOf st r ids
      = (ids.map (fun lid =>
          match getRestaurantById st.restaurants lid with
          | none => (0 : ℚ)
          | some lr =>
              (if r.cuisine_type.any (fun c => lr.cuisine_type.contains c) then (0.2 : ℚ) else 0)
              + (if r.vibes.any (fun v => lr.vibes.contains v) then (0.1 : ℚ) else 0))).sum := by
  unfold likedBoostOf
  suffices haux : ∀ (l : List String) (b : ℚ),
      l.foldl (fun acc lid =>
        match getRestaurantById st.restaurants lid with
        | none => acc
        | some lr =>
            let acc1 := if r.cuisine_type.any (fun c => lr.cuisine_type.contains c)
              then acc + 0.2 else acc
            if r.vibes.any (fun v => lr.vibes.contains v) then acc1 + 0.1 else acc1) b
      = b + (l.map (fun lid =>
          match getRestaurantById st.restaurants lid with
          | none => (0 : ℚ)
          | some lr =>
              (if r.cuisine_type.any (fun c => lr.cuisine_type.contains c) then (0.2 : ℚ) else 0)
              + (if r.vibes.any (fun v => lr.vibes.contains v) then (0.1 : ℚ) else 0))).sum by
    rw [haux ids 0, zero_add]
  intro l
  induction l with
  | nil => simp
  | cons lid t ih =>
      intro b
      simp only [List.foldl_cons, List.map_cons, List.sum_cons]
      cases h : getRestaurantById st.restaurants lid with
      | none => rw [ih b]; ring
      | some lr =>
          rw [ih]
          by_cases hc : ∃ x ∈ r.cuisine_type, x ∈ lr.cuisine_type
          · by_cases hv : ∃ x ∈ r.vibes, x ∈ lr.vibes
            · simp [hc, hv]
              try ring
            · simp [hc, hv]
              try ring
          · by_cases hv : ∃ x ∈ r.vibes, x ∈ lr.vibes
            · simp [hc, hv]
              try ring
            · simp [hc, hv]
              try ring

/-- C4 (amended): `_apply_session_learning` keeps exactly the candidates that
are neither shown nor disliked; each retained candidate appears with adjusted
score `min(base + cuisine boost + vibe boost + liked-similarity sum, 1)`,
where the liked-similarity part adds, once per element of the liked list that
resolves in the Store, 0.2 for a shared cuisine tag and 0.1 for a shared vibe
tag (duplicate likes compound), the result is clipped at 1.0 from above only
and sorted descending by adjusted score. The cuisine boost is decided by the
first matching (cuisine, preference) pair in iteration order — 0.5 when that
pair matches directly, 0.4 when it matches through the category table — so a
direct match elsewhere in the lists does not override an earlier category
match (see the counterexample). -/
theorem applySessionLearning_boosts_and_sorts (st : EngineState)
    (recs : List Recommendation) (sess : Session) :
    ((applySessionLearning st recs sess).Pairwise (fun a b => b.score ≤ a.score))
    ∧ (∀ rec ∈ recs,
        rec.restaurant.id ∉ sess.shown_restaurant_ids →
        rec.restaurant.id ∉ sess.disliked_restaurant_ids →
        ({ restaurant := rec.restaurant
           score := min (rec.score
             + cuisineBoostOf rec.restaurant sess
             + vibeBoostOf rec.restaurant sess
             + (sess.liked_restaurant_ids.map (fun lid =>
                 match getRestaurantById st.restaurants lid with
                 | none => (0 : ℚ)
                 | some lr =>
                     (if rec.restaurant.cuisine_type.any
                         (fun c => lr.cuisine_type.contains c) then (0.2 : ℚ) else 0)
                     + (if rec.restaurant.vibes.any
                         (fun v => lr.vibes.contains v) then (0.1 : ℚ) else 0))).sum) 1
         } : Recommendation) ∈ applySessionLearning st recs sess) := by
  constructor
  · rw [applySessionLearning_eq]
    have := sortDescBy_pairwise (fun rec : Recommendation => rec.score)
      ((recs.filter (fun rec => !(sess.shown_restaurant_ids.contains rec.restaurant.id)
          && !(sess.disliked_restaurant_ids.contains rec.restaurant.id))).map
        (fun rec => { restaurant := rec.restaurant, score := adjustedScore st sess rec }))
    exact this
  · intro rec hrec h1 h2
    rw [applySessionLearning_eq, mem_sortDescBy, List.mem_map]
    refine ⟨rec, ?_, ?_⟩
    · rw [List.mem_filter]
      refine ⟨hrec, ?_⟩
      simp [h1, h2]
    · show ({ restaurant := rec.restaurant, score := adjustedScore st sess rec }
          : Recommendation) = _
      unfold adjustedScore
      rw [likedBoostOf_eq_sum]

/-- Witness: session learning on a one-candidate pool with no session
preferences keeps the candidate with its clipped base score. -/
theorem applySessionLearning_boosts_and_sorts_witness :
    ((applySessionLearning stEmpty [recPlain]
        (freshSession ("s") ("u") (SessLocation.city ("X") none))).Pairwise
      (fun a b => b.score ≤ a.score))
    ∧ ({ restaurant := recPlain.restaurant
         score := min (recPlain.score
           + cuisineBoostOf recPlain.restaurant
               (freshSession ("s") ("u") (SessLocation.city ("X") none))
           + vibeBoostOf recPlain.restaurant
               (freshSession ("s") ("u") (SessLocation.city ("X") none))
           + (((freshSession ("s") ("u") (SessLocation.city ("X") none)).liked_restaurant_ids).map
               (fun lid =>
                 match getRestaurantById stEmpty.restaurants lid with
                 | none => (0 : ℚ)
                 | some lr =>
                     (if recPlain.restaurant.cuisine_type.any
                         (fun c => lr.cuisine_type.contains c) then (0.2 : ℚ) else 0)
                     + (if recPlain.restaurant.vibes.any
                         (fun v => lr.vibes.contains v) then (0.1 : ℚ) else 0))).sum) 1
       } : Recommendation) ∈ applySessionLearning stEmpty [recPlain]
        (freshSession ("s") ("u") (SessLocation.city ("X") none)) :=
  ⟨(applySessionLearning_boosts_and_sorts stEmpty [recPlain]
      (freshSession ("s") ("u") (SessLocation.city ("X") none))).1,
    (applySessionLearning_boosts_and_sorts stEmpty [recPlain]
      (freshSession ("s") ("u") (SessLocation.city ("X") none))).2 recPlain
      (by decide) (by decide) (by decide)⟩

/-- C4 counterexample: with preferred cuisines `["asian", "thai"]` and
candidate cuisines `["sushi", "thai"]` the code awards 0.4 (the category
match of the first pair (sushi, asian)), although a direct match
(thai, thai) exists, so the claimed "+0.5 on a direct match, else +0.4"
priority does not hold: the adjusted score is 0.4, not 0.5. -/
theorem cuisine_boost_order_counterexample :
    ((applySessionLearning stEmpty [recBoost] sessBoost).map (fun rec => rec.score) = [2/5])
    ∧ (recBoost.restaurant.cuisine_type.any (fun c =>
        (["asian", "thai"] : List String).any (fun pf =>
          directMatch (pyLower pf) (pyLower c))) = true)
    ∧ ((2 : ℚ)/5 ≠ min ((0 : ℚ) + 1/2 + 0 + 0) 1) := by
  have hcb : cuisineBoostOf recBoost.restaurant sessBoost = 0.4 := rfl
  have hvb : vibeBoostOf recBoost.restaurant sessBoost = 0 := rfl
  have hlb : likedBoostOf stEmpty recBoost.restaurant sessBoost.liked_restaurant_ids = 0 := rfl
  have happ : applySessionLearning stEmpty [recBoost] sessBoost
      = [{ restaurant := recBoost.restaurant, score := adjustedScore stEmpty sessBoost recBoost }] := rfl
  refine ⟨?_, by decide, by norm_num [min_def]⟩
  rw [happ]
  simp only [List.map_cons, List.map_nil]
  unfold adjustedScore
  rw [hcb, hvb, hlb, show recBoost.score = 0 from rfl]
  norm_num [min_def]

lemma mem_simPairs (st : EngineState) (rid : String) (target : Restaurant)
    (pr : Restaurant × ℚ)
    (h : pr ∈ (st.restaurants.filter (fun r => !(r.id == rid))).filterMap (fun r =>
      let s := calcSimilarity target r
      if s > 0.3 then some (r, s) else none)) : pr.1.id ≠ rid := by
  rw [List.mem_filterMap] at h
  obtain ⟨r0, hr0, hf⟩ := h
  rw [List.mem_filter] at hr0
  have hid : r0.id ≠ rid := by simpa using hr0.2
  by_cases hs : calcSimilarity target r0 > 0.3
  · simp only [hs, if_pos] at hf
    have : pr.1 = r0 := by
      cases hf
      rfl
    rw [this]
    exact hid
  · simp only [hs, if_neg] at hf
    cases hf

/-- C10: `find_similar_restaurants` never returns a restaurant carrying the
target id (the target is skipped during candidate iteration, in both the
plain and the user-re-ranked path), and an unknown target id yields the empty
list rather than an error. -/
theorem findSimilar_excludes_target_and_unknown_empty :
    (∀ (st : EngineState) (rid : String) (lim : Nat) (uid : Option String) (r : Restaurant),
      r ∈ findSimilarRestaurants st rid lim uid → r.id ≠ rid)
    ∧ (∀ (st : EngineState) (rid : String) (lim : Nat) (uid : Option String),
      getRestaurantById st.restaurants rid = none →
      findSimilarRestaurants st rid lim uid = []) := by
  constructor
  · intro st rid lim uid r hr
    cases htgt : getRestaurantById st.restaurants rid with
    | none =>
        simp only [findSimilarRestaurants, htgt] at hr
        simp at hr
    | some target =>
        cases huid : uid with
        | none =>
            simp only [findSimilarRestaurants, htgt, huid] at hr
            rw [List.mem_map] at hr
            obtain ⟨pr, hpr, hpr1⟩ := hr
            have hpr2 := (mem_sortDescBy (fun pr : Restaurant × ℚ => pr.2) _ pr).mp
              (List.take_subset _ _ hpr)
            rw [← hpr1]
            exact mem_simPairs st rid target pr hpr2
        | some u =>
            cases hprof : getUserProfile st u with
            | none =>
                simp only [findSimilarRestaurants, htgt, huid, hprof] at hr
                rw [List.mem_map] at hr
                obtain ⟨pr, hpr, hpr1⟩ := hr
                have hpr2 := (mem_sortDescBy (fun pr : Restaurant × ℚ => pr.2) _ pr).mp
                  (List.take_subset _ _ hpr)
                rw [← hpr1]
                exact mem_simPairs st rid target pr hpr2
            | some profile =>
                simp only [findSimilarRestaurants, htgt, huid, hprof] at hr
                rw [List.mem_map] at hr
                obtain ⟨pr2, hpr2m, hpr21⟩ := hr
                have hpr2s := (mem_sortDescBy (fun pr : Restaurant × ℚ => pr.2) _ pr2).mp
                  (List.take_subset _ _ hpr2m)
                rw [List.mem_map] at hpr2s
                obtain ⟨pr, hprm, hpreq⟩ := hpr2s
                have hprs := (mem_sortDescBy (fun pr : Restaurant × ℚ => pr.2) _ pr).mp hprm
                have hid := mem_simPairs st rid target pr hprs
                rw [← hpr21, ← hpreq]
                exact hid
  · intro st rid lim uid h
    unfold findSimilarRestaurants
    rw [h]


lemma cacheLiveIds_shown (sess : Session) (u : Bool) (recs : List Recommendation) :
    (cacheLiveIds sess u recs).shown_restaurant_ids = sess.shown_restaurant_ids := rfl

lemma cacheLiveIds_sid (sess : Session) (u : Bool) (recs : List Recommendation) :
    (cacheLiveIds sess u recs).session_id = sess.session_id := rfl

lemma getRecommendations_sessions (st : EngineState) (uid : String) (lim : Nat)
    (ev il : Bool) : ((getRecommendations st uid lim ev il).2).sessions = st.sessions := by
  simp only [getRecommendations]
  cases h : getUserProfile st uid <;> simp only [h] <;> split_ifs <;> simp [saveUserProfile]

lemma getRecommendationsByCity_sessions (st : EngineState) (uid city : String)
    (reg : Option String) (lim : Nat) (il : Bool) :
    ((getRecommendationsByCity st uid city reg lim il).2).sessions = st.sessions := by
  simp only [getRecommendationsByCity]
  split_ifs <;> rfl

lemma sessionShown_congr (st1 st2 : EngineState) (h : st1.sessions = st2.sessions)
    (sid : String) : sessionShown st1 sid = sessionShown st2 sid := by
  unfold sessionShown getSession findBy
  rw [h]

lemma sessionShown_saveSession (st : EngineState) (s : Session) (sid : String) :
    sessionShown (saveSession st s) sid
      = if s.session_id = sid then s.shown_restaurant_ids else sessionShown st sid := by
  by_cases h : s.session_id = sid
  · rw [if_pos h]
    unfold sessionShown saveSession getSession
    simp only []
    rw [← h]
    have h2 : findBy (fun x : Session => x.session_id)
        (upsertBy (fun x : Session => x.session_id) st.sessions
          ({ s with cached_live_restaurants := [] })) s.session_id
        = some ({ s with cached_live_restaurants := [] }) :=
      findBy_upsertBy_self (fun x : Session => x.session_id) _ st.sessions
    rw [h2]
  · rw [if_neg h]
    unfold sessionShown saveSession getSession
    simp only []
    have h3 : findBy (fun x : Session => x.session_id)
        (upsertBy (fun x : Session => x.session_id) st.sessions
          ({ s with cached_live_restaurants := [] })) sid
        = findBy (fun x : Session => x.session_id) st.sessions sid :=
      findBy_upsertBy_ne (fun x : Session => x.session_id)
        ({ s with cached_live_restaurants := [] }) sid h st.sessions
    rw [h3]

lemma logFeedback_sessions (st : EngineState) (a b c : String) :
    (logFeedback st a b c).sessions = st.sessions := rfl

lemma foldl_logFeedback_sessions (ids : List String) (sid kind : String) :
    ∀ st : EngineState,
      ((ids.foldl (fun s rid => logFeedback s sid rid kind) st)).sessions = st.sessions := by
  induction ids with
  | nil => intro st; rfl
  | cons i t ih =>
      intro st
      rw [List.foldl_cons, ih, logFeedback_sessions]

lemma collectSessionFeedback_shown (st : EngineState) (sid2 : String)
    (l d : List String) (c v : Option (List String)) (sid : String) :
    sessionShown ((collectSessionFeedback st sid2 l d c v).2) sid = sessionShown st sid := by
  unfold collectSessionFeedback
  cases h : getSession st sid2 with
  | none => rfl
  | some sess =>
      simp only []
      have hsess := getSession_key st sid2 sess h
      rw [sessionShown_congr _ _ (foldl_logFeedback_sessions d sid2 ("disliked") _),
        sessionShown_congr _ _ (foldl_logFeedback_sessions l sid2 ("liked") _),
        sessionShown_saveSession]
      by_cases hs : sess.session_id = sid
      · rw [if_pos hs]
        unfold sessionShown
        rw [show sid = sid2 from by rw [← hs, hsess], h]
      · rw [if_neg hs]

lemma getSessionRecommendations_shown (st : EngineState) (sid2 : String) (lim : Nat)
    (il : Bool) (sid : String) :
    ∃ ext, sessionShown ((getSessionRecommendations st sid2 lim il).2) sid
      = sessionShown st sid ++ ext := by
  unfold getSessionRecommendations
  cases h : getSession st sid2 with
  | none => exact ⟨[], by simp⟩
  | some sess =>
      have hsess := getSession_key st sid2 sess h
      cases hloc : sess.location with
      | invalid =>
          simp only [hloc]
          exact ⟨[], by simp⟩
      | coords =>
          simp only [hloc, finishSession]
          rw [sessionShown_saveSession]
          simp only [cacheLiveIds_sid, cacheLiveIds_shown]
          by_cases hs : sess.session_id = sid
          · rw [if_pos hs]
            rw [show sid = sid2 from by rw [← hs, hsess]]
            unfold sessionShown
            rw [h]
            exact ⟨_, rfl⟩
          · rw [if_neg hs]
            exact ⟨[], by rw [List.append_nil,
              sessionShown_congr _ _ (getRecommendations_sessions st sess.user_id 200 true _)]⟩
      | city cn reg =>
          simp only [hloc, finishSession]
          rw [sessionShown_saveSession]
          simp only [cacheLiveIds_sid, cacheLiveIds_shown]
          by_cases hs : sess.session_id = sid
          · rw [if_pos hs]
            rw [show sid = sid2 from by rw [← hs, hsess]]
            unfold sessionShown
            rw [h]
            exact ⟨_, rfl⟩
          · rw [if_neg hs]
            exact ⟨[], by rw [List.append_nil,
              sessionShown_congr _ _
                (getRecommendationsByCity_sessions st sess.user_id cn reg 200 _)]⟩

lemma stepOp_shown_extends (st : EngineState) (op : SessionOp) (sid : String) :
    ∃ ext, sessionShown (stepOp st op) sid = sessionShown st sid ++ ext := by
  cases op with
  | feedback sid2 l d c v =>
      exact ⟨[], by rw [List.append_nil]; exact collectSessionFeedback_shown st sid2 l d c v sid⟩
  | fetch sid2 lim il => exact getSessionRecommendations_shown st sid2 lim il sid

lemma mem_shown_runOps (sid x : String) (ops : List SessionOp) :
    ∀ st : EngineState, x ∈ sessionShown st sid → x ∈ sessionShown (runOps st ops) sid := by
  induction ops with
  | nil => intro st h; exact h
  | cons op t ih =>
      intro st h
      unfold runOps at ih ⊢
      rw [List.foldl_cons]
      apply ih
      obtain ⟨ext, hext⟩ := stepOp_shown_extends st op sid
      rw [hext]
      exact List.mem_append_left _ h

lemma mem_applySessionLearning_not_shown (st : EngineState) (recs : List Recommendation)
    (sess : Session) (rec2 : Recommendation) (h : rec2 ∈ applySessionLearning st recs sess) :
    rec2.restaurant.id ∉ sess.shown_restaurant_ids := by
  rw [applySessionLearning_eq, mem_sortDescBy, List.mem_map] at h
  obtain ⟨rec, hrec, heq⟩ := h
  rw [List.mem_filter] at hrec
  have hcond := hrec.2
  simp at hcond
  rw [← heq]
  exact hcond.1

lemma fetch_result_in_next_shown (st : EngineState) (sid : String) (lim : Nat) (il : Bool)
    (x : String) (h : x ∈ recIds (getSessionRecommendations st sid lim il).1) :
    x ∈ sessionShown ((getSessionRecommendations st sid lim il).2) sid := by
  unfold getSessionRecommendations at h ⊢
  cases hs : getSession st sid with
  | none =>
      simp only [hs] at h
      simp [recIds] at h
  | some sess =>
      have hkey := getSession_key st sid sess hs
      cases hloc : sess.location with
      | invalid =>
          simp only [hs, hloc] at h
          simp [recIds] at h
      | coords =>
          simp only [hs, hloc] at h ⊢
          simp only [finishSession] at h ⊢
          rw [sessionShown_saveSession]
          simp only [cacheLiveIds_sid, cacheLiveIds_shown]
          rw [if_pos hkey]
          unfold recIds at h
          exact List.mem_append_right _ h
      | city cn reg =>
          simp only [hs, hloc] at h ⊢
          simp only [finishSession] at h ⊢
          rw [sessionShown_saveSession]
          simp only [cacheLiveIds_sid, cacheLiveIds_shown]
          rw [if_pos hkey]
          unfold recIds at h
          exact List.mem_append_right _ h

lemma fetch_result_fresh (st : EngineState) (sid : String) (lim : Nat) (il : Bool)
    (x : String) (h : x ∈ recIds (getSessionRecommendations st sid lim il).1) :
    x ∉ sessionShown st sid := by
  unfold getSessionRecommendations at h
  cases hs : getSession st sid with
  | none =>
      simp only [hs] at h
      simp [recIds] at h
  | some sess =>
      have hshown : sessionShown st sid = sess.shown_restaurant_ids := by
        unfold sessionShown
        rw [hs]
      rw [hshown]
      cases hloc : sess.location with
      | invalid =>
          simp only [hs, hloc] at h
          simp [recIds] at h
      | coords =>
          simp only [hs, hloc] at h
          simp only [finishSession] at h
          unfold recIds at h
          rw [List.mem_map] at h
          obtain ⟨rec2, hrec2, hid⟩ := h
          have hmem := List.take_subset _ _ hrec2
          have hns := mem_applySessionLearning_not_shown _ _ _ _ hmem
          rw [cacheLiveIds_shown] at hns
          rw [← hid]
          exact hns
      | city cn reg =>
          simp only [hs, hloc] at h
          simp only [finishSession] at h
          unfold recIds at h
          rw [List.mem_map] at h
          obtain ⟨rec2, hrec2, hid⟩ := h
          have hmem := List.take_subset _ _ hrec2
          have hns := mem_applySessionLearning_not_shown _ _ _ _ hmem
          rw [cacheLiveIds_shown] at hns
          rw [← hid]
          exact hns

/-- C2: the stored `shown_restaurant_ids` of every session only ever grows —
each session operation extends it by a (possibly empty) suffix — and a
restaurant id returned by one `get_session_recommendations` call is never
contained in the result of any later call on the same session, whatever
feedback or fetch operations happen in between; with no intervening
operations this specialises to two successive calls returning disjoint id
sets. -/
theorem shown_monotone_and_never_repeat :
    (∀ (st : EngineState) (op : SessionOp) (sid : String),
      ∃ ext, sessionShown (stepOp st op) sid = sessionShown st sid ++ ext)
    ∧ (∀ (st : EngineState) (sid : String) (lim : Nat) (il : Bool) (ops : List SessionOp)
        (lim2 : Nat) (il2 : Bool) (x : String),
        x ∈ recIds (getSessionRecommendations st sid lim il).1 →
        x ∉ recIds (getSessionRecommendations
          (runOps (getSessionRecommendations st sid lim il).2 ops) sid lim2 il2).1) := by
  refine ⟨stepOp_shown_extends, ?_⟩
  intro st sid lim il ops lim2 il2 x hx hcontra
  have h1 := fetch_result_in_next_shown st sid lim il x hx
  have h2 := mem_shown_runOps sid x ops _ h1
  exact fetch_result_fresh _ sid lim2 il2 x hcontra h2

/-- Witness: on the one-candidate state `stW`, the first round returns
restaurant `a` and an immediate second round does not return it again. -/
theorem shown_monotone_and_never_repeat_witness :
    (("a" : String) ∈ recIds (getSessionRecommendations stW ("s") 1 false).1)
    ∧ ("a" : String) ∉ recIds (getSessionRecommendations
        (runOps (getSessionRecommendations stW ("s") 1 false).2 []) ("s") 1 false).1 :=
  ⟨by decide, shown_monotone_and_never_repeat.2 stW ("s") 1 false [] 1 false ("a") (by decide)⟩

/-- Witness: find-similar on a two-restaurant store returns the non-target
restaurant, whose id differs from the target id, and an unknown target id
yields the empty list. -/
theorem findSimilar_excludes_target_and_unknown_empty_witness :
    (simOther.id ≠ "t") ∧ findSimilarRestaurants stEmpty ("zz") 5 none = [] := by
  constructor
  · apply findSimilar_excludes_target_and_unknown_empty.1 stSim ("t") 5 none simOther
    have hc1 : calcSetSimilarity simTgt.cuisine_type simOther.cuisine_type = 1 := by
      show calcSetSimilarity ["x"] ["x"] = 1
      unfold calcSetSimilarity
      rw [if_neg (by decide), if_neg (by decide), if_pos (by decide),
        show ((["x"] : List String).dedup.filter (fun y => y ∈ (["x"] : List String))).length
          = 1 from by decide,
        show (((["x"] : List String) ++ ["x"]).dedup).length = 1 from by decide]
      norm_num
    have hc2 : calcSetSimilarity simTgt.vibes simOther.vibes = 1 := rfl
    have hsim : calcSimilarity simTgt simOther = 7/10 := by
      unfold calcSimilarity
      rw [hc1, hc2]
      simp only [simTgt, simOther, baseRestaurant]
      norm_num
    have hgt : calcSimilarity simTgt simOther > 0.3 := by
      rw [hsim]
      norm_num
    have heval : findSimilarRestaurants stSim ("t") 5 none = [simOther] := by
      unfold findSimilarRestaurants
      rw [show getRestaurantById stSim.restaurants ("t") = some simTgt from rfl]
      simp only []
      rw [show stSim.restaurants.filter (fun r => !(r.id == ("t" : String))) = [simOther]
        from rfl]
      simp only [List.filterMap_cons, List.filterMap_nil]
      rw [if_pos hgt]
      rfl
    rw [heval]
    exact List.mem_singleton.mpr rfl
  · exact findSimilar_excludes_target_and_unknown_empty.2 stEmpty ("zz") 5 none rfl

end Picky
